import Mathlib

/-!
Shallow embedding of the sencillo-go NATS micro dispatch layer:
the `ClientError` taxonomy (errors/errors.go), the query-string header
bridge and request dispatcher (transports/nats/micro.go, tracing variant;
and the traceless variant of the same file family), and the trace-carrier
adapter. Go header maps (`nats.Header` / `micro.Headers`, a
`map[string][]string`) are modelled as association lists with unique keys;
strings are Lean `String`s (exact for the ASCII data all claims use, since
Go indexes bytes and every relevant byte is ASCII).
-/

namespace Sencillo

/-- Header container: `map[string][]string` as an association list.
Go map iteration order is unspecified; all observations used here
(lookups, key membership) are order-independent. -/
abbrev Headers := List (String × List String)

/-- Plain map lookup, `h[key]` returning the value slice if present. -/
def headersFind : Headers → String → Option (List String)
  | [], _ => none
  | (k', vs) :: rest, k => if k' = k then some vs else headersFind rest k

/-- Model of `nats.Header.Get`: first value of the slice at the key, or "". -/
def headersGet (h : Headers) (k : String) : String :=
  match headersFind h k with
  | some (v :: _) => v
  | _ => ""

/-- Model of `nats.Header.Values` (and `micro.Headers.Values`): the full
slice at the key, or the empty slice. -/
def headersValues (h : Headers) (k : String) : List String :=
  match headersFind h k with
  | some vs => vs
  | none => []

/-- Model of Go map assignment `h[k] = vs`: overwrite if the key exists,
insert otherwise. -/
def headersSet : Headers → String → List String → Headers
  | [], k, vs => [(k, vs)]
  | (k', vs') :: rest, k, vs =>
    if k' = k then (k, vs) :: rest else (k', vs') :: headersSet rest k vs

/-- Model of Go `strconv`-style `%q` quoting for printable ASCII: wrap in
double quotes, escaping the quote and backslash characters (exact for the
printable-ASCII detail strings all claims use). -/
def goQuoteChar (c : Char) : List Char :=
  if c = '"' then ['\\', '"']
  else if c = '\\' then ['\\', '\\']
  else [c]

/-- Go `fmt.Sprintf("%q", s)` on printable ASCII input. -/
def goQuote (s : String) : String :=
  "\"" ++ String.mk (s.data.flatMap goQuoteChar) ++ "\""

/-- Model of `net/http.StatusText` restricted to the codes this code base
can emit; unrecognized codes yield "" as in Go. -/
def statusText (code : Int) : String :=
  if code = 400 then "Bad Request"
  else if code = 401 then "Unauthorized"
  else if code = 403 then "Forbidden"
  else if code = 404 then "Not Found"
  else if code = 409 then "Conflict"
  else if code = 422 then "Unprocessable Entity"
  else if code = 500 then "Internal Server Error"
  else ""

/-- Decides whether a character is a hexadecimal digit (`net/url.ishex`). -/
def ishex (c : Char) : Bool :=
  (decide ('0' ≤ c) && decide (c ≤ '9')) ||
  (decide ('a' ≤ c) && decide (c ≤ 'f')) ||
  (decide ('A' ≤ c) && decide (c ≤ 'F'))

/-- Numeric value of a hexadecimal digit (`net/url.unhex`). -/
def unhex (c : Char) : Nat :=
  if decide ('0' ≤ c) && decide (c ≤ '9') then c.toNat - '0'.toNat
  else if decide ('a' ≤ c) && decide (c ≤ 'f') then c.toNat - 'a'.toNat + 10
  else if decide ('A' ≤ c) && decide (c ≤ 'F') then c.toNat - 'A'.toNat + 10
  else 0

/-- Model of `net/url.QueryUnescape` (i.e. `unescape` in query-component
mode): `%XX` decodes a byte, `+` decodes to space, a malformed `%` escape
fails with `EscapeError` carrying up to three characters from the bad
escape. Go validates the whole string first but reports the first
malformed escape, which this left-to-right recursion also does. -/
def queryUnescape : List Char → Except String (List Char)
  | [] => Except.ok []
  | c :: rest =>
    if c = '%' then
      match rest with
      | a :: b :: rest2 =>
        if ishex a && ishex b then
          (queryUnescape rest2).map (fun t => Char.ofNat (16 * unhex a + unhex b) :: t)
        else
          Except.error ("invalid URL escape " ++ goQuote (String.mk ('%' :: (a :: b :: rest2).take 2)))
      | short =>
        Except.error ("invalid URL escape " ++ goQuote (String.mk ('%' :: short.take 2)))
    else if c = '+' then
      (queryUnescape rest).map (fun t => ' ' :: t)
    else
      (queryUnescape rest).map (fun t => c :: t)

/-- Model of `strings.Cut(s, "=")`: the part before the first `=` and the
part after it (empty when no `=` occurs, as in Go where `after` is ""). -/
def cutEq : List Char → List Char × List Char
  | [] => ([], [])
  | c :: rest =>
    if c = '=' then ([], rest)
    else
      let p := cutEq rest
      (c :: p.1, p.2)

/-- Appends a value under a key in a `url.Values` map, modelling
`m[key] = append(m[key], value)` on an insertion-ordered association list. -/
def valuesAdd : List (String × List String) → String → String → List (String × List String)
  | [], k, v => [(k, [v])]
  | (k', vs) :: rest, k, v =>
    if k' = k then (k', vs ++ [v]) :: rest else (k', vs) :: valuesAdd rest k v

/-- Keeps the first error, as Go's `if err == nil { err = err1 }` does. -/
def orFirst (e : Option String) (msg : String) : Option String :=
  match e with
  | some x => some x
  | none => some msg

/-- Model of the loop body of `net/url.parseQuery` over the `&`-separated
segments: a segment containing `;` unconditionally sets the error, an empty
segment is skipped, otherwise the segment is cut at the first `=` and both
sides are query-unescaped; unescape failures record the first error and
skip the pair, successes append to the values map. -/
def parseQuerySegs : List (List Char) → List (String × List String) → Option String →
    List (String × List String) × Option String
  | [], m, e => (m, e)
  | seg :: rest, m, e =>
    if seg.contains ';' then
      parseQuerySegs rest m (some "invalid semicolon separator in query")
    else if seg.isEmpty then
      parseQuerySegs rest m e
    else
      let kv := cutEq seg
      match queryUnescape kv.1 with
      | Except.error msg => parseQuerySegs rest m (orFirst e msg)
      | Except.ok kc =>
        match queryUnescape kv.2 with
        | Except.error msg => parseQuerySegs rest m (orFirst e msg)
        | Except.ok vc => parseQuerySegs rest (valuesAdd m (String.mk kc) (String.mk vc)) e

/-- Model of `net/url.ParseQuery`: the parsed values map together with the
first error, if any (Go returns both; the values map holds every pair that
parsed successfully even when an error is reported). -/
def ParseQuery (query : String) : List (String × List String) × Option String :=
  parseQuerySegs (query.data.splitOn '&') [] none

/-- Model of `errors.ClientError` (errors/errors.go): status code, detail
strings shown to the caller, and the underlying error messages kept for
logging (underlying Go `error`s are modelled by their messages). -/
structure ClientError where
  Status : Int
  Details : List String
  DetailedErrors : List String
deriving DecidableEq, Repr

/-- Model of `ClientError.Error()`: details joined with comma-space. -/
def ClientError.message (c : ClientError) : String :=
  String.intercalate ", " c.Details

/-- Model of `ClientError.Body()`: the details joined by commas, verbatim,
inside the errors envelope (no escaping happens here; quoting is done by
the constructors). -/
def ClientError.body (c : ClientError) : String :=
  "\x7b\"errors\": [" ++ String.intercalate "," c.Details ++ "]\x7d"

/-- Model of `ClientError.Code()`. -/
def ClientError.code (c : ClientError) : Int :=
  c.Status

/-- Model of `ClientError.LoggedError()`. -/
def ClientError.loggedError (c : ClientError) : List String :=
  c.DetailedErrors

/-- Model of `errors.MultipleClientErrors` with no option hooks (the
dispatcher never passes any): each cause message is `%q`-quoted into the
details, the causes themselves are kept for logging. -/
def MultipleClientErrors (errs : List String) (code : Int) : ClientError :=
  { Status := code, Details := errs.map goQuote, DetailedErrors := errs }

/-- Model of `errors.NewClientError` with no option hooks. -/
def NewClientError (err : String) (code : Int) : ClientError :=
  MultipleClientErrors [err] code

/-- An error value as seen by the dispatcher: either a value implementing
the `ClientError` interface (the repository's `errors.ClientError`) or any
other Go error, observable only through its `Error()` message. This models
the dynamic type test `err.(ClientError)` in `handleRequestError`. -/
inductive GoError where
  | client (ce : ClientError)
  | basic (msg : String)
deriving DecidableEq, Repr

/-- Model of `err.Error()` on an arbitrary dispatcher error. -/
def GoError.message : GoError → String
  | GoError.client ce => ce.message
  | GoError.basic msg => msg

/-- A call to `micro.Request.Error(code, description, body)`. -/
structure Response where
  code : String
  description : String
  body : String
deriving DecidableEq, Repr

/-- A structured-log emission: level, the logger's accumulated fields, and
the message. -/
structure LogEvent where
  level : String
  fields : List (String × String)
  msg : String
deriving DecidableEq, Repr

/-- Span status as set by the tracing dispatcher. -/
inductive SpanStatus where
  | ok
  | error (msg : String)
deriving DecidableEq, Repr

/-- The inbound request: subject plus the live header map. The payload is
never read by the dispatcher, so it is omitted. -/
structure Request where
  subject : String
  headers : Headers

/-- Everything observable about one dispatch: log events and transport
response writes in temporal order, whether the application handler ran,
span bookkeeping (always absent for the traceless variant), the logged
duration if any, and the final state of the header map. -/
structure DispatchResult where
  logs : List LogEvent
  responses : List Response
  handlerInvoked : Bool
  spanCreated : Bool
  spanStatus : Option SpanStatus
  spanErrorRecorded : Bool
  spanEnded : Bool
  spanAttrs : List (String × String)
  spanName : Option String
  durationLogged : Option Nat
  finalHeaders : Headers
deriving DecidableEq

/-- Model of `handleRequestError` (micro.go): a `ClientError` logs each
underlying cause and answers with its own code, `http.StatusText` of the
code, and its body; any other error logs its message and answers with the
fixed internal-500 envelope. Returns the emitted log events and the single
response write. -/
def handleRequestError (fields : List (String × String)) (err : GoError) :
    List LogEvent × Response :=
  match err with
  | GoError.client ce =>
    (ce.loggedError.map (fun m => { level := "error", fields := fields, msg := m }),
     { code := toString ce.code, description := statusText ce.code, body := ce.body })
  | GoError.basic msg =>
    ([{ level := "error", fields := fields, msg := msg }],
     { code := "500", description := "internal server error",
       body := "\x7b\"errors\": [\"internal server error\"]\x7d" })

/-- Model of `buildQueryHeaders`: read the `X-NatsBridge-UrlQuery` header,
parse it as a query string, and on success write each parameter back into
the live header map under the `X-Sencillo-` namespace; on parse failure
return the error with the header map untouched (the write loop never ran). -/
def buildQueryHeaders (h : Headers) : Except String Headers :=
  let query := headersGet h "X-NatsBridge-UrlQuery"
  match ParseQuery query with
  | (_, some e) => Except.error e
  | (parsed, none) =>
    Except.ok (parsed.foldl (fun acc p => headersSet acc ("X-Sencillo-" ++ p.1) p.2) h)

/-- Model of `GetQueryHeaders`: values of the `X-Sencillo-`-namespaced key. -/
def GetQueryHeaders (h : Headers) (key : String) : List String :=
  headersValues h ("X-Sencillo-" ++ key)

/-- Model of `MsgID`: the `X-Request-ID` header value, or the error used
when it is absent or empty. -/
def MsgID (h : Headers) : Except String String :=
  let id := headersGet h "X-Request-ID"
  if id = "" then Except.error "required request ID not found" else Except.ok id

/-- Model of `microHeaderCarrier.Get` (micro.go line 63). -/
def carrierGet (m : Headers) (key : String) : String :=
  headersGet m key

/-- Model of `microHeaderCarrier.Set` (micro.go line 67): the Go assignment
`m[key] = []string\x7bval\x7d`, replacing the whole value list with a
singleton, applied directly to the live container. -/
def carrierSet (m : Headers) (key val : String) : Headers :=
  headersSet m key [val]

/-- Model of `microHeaderCarrier.Keys` (micro.go line 71): the keys of the
live container (Go map iteration order is unspecified; the model keeps
container order). -/
def carrierKeys (m : Headers) : List String :=
  m.map Prod.fst

/-- The deferred `reqLogger.Info(fmt.Sprintf("duration %dms", ...))` call. -/
def durationEvent (fields : List (String × String)) (ms : Nat) : LogEvent :=
  { level := "info", fields := fields, msg := "duration " ++ toString ms ++ "ms" }

/-- Model of the tracing `ErrorHandler` (transports/nats/micro.go lines
109-151). `baseFields` are the fields already on `a.Logger`; `handler` is
the application handler abstracted to its error outcome as a function of
the (possibly bridged) header map; `elapsedMs` is the elapsed wall-clock
milliseconds measured by the deferred duration log (non-negative because
Go's `time.Since` uses the monotonic clock). Mirrors the code path for
path: a missing or empty `X-Request-ID` responds 400 and returns before
the duration defer, the bridge failure is reported but does not stop
dispatch, the span wraps the handler call, and the defers run in reverse
order (span end, then the duration log). -/
def ErrorHandlerGo (name : String) (baseFields : List (String × String))
    (handler : Headers → Option GoError) (r : Request) (elapsedMs : Nat) :
    DispatchResult :=
  let id := headersGet r.headers "X-Request-ID"
  if id = "" then
    let pr := handleRequestError baseFields
      (GoError.client (NewClientError "required request ID not found" 400))
    { logs := pr.1, responses := [pr.2], handlerInvoked := false,
      spanCreated := false, spanStatus := none, spanErrorRecorded := false,
      spanEnded := false, spanAttrs := [], spanName := none,
      durationLogged := none, finalHeaders := r.headers }
  else
    let reqFields := baseFields ++ [("request_id", id), ("path", r.subject)]
    let bridge :=
      match buildQueryHeaders r.headers with
      | Except.ok h' => (h', ([] : List LogEvent), ([] : List Response))
      | Except.error m =>
        let pr := handleRequestError reqFields (GoError.basic m)
        (r.headers, pr.1, [pr.2])
    let h1 := bridge.1
    match handler h1 with
    | none =>
      { logs := bridge.2.1 ++ [durationEvent reqFields elapsedMs],
        responses := bridge.2.2, handlerInvoked := true, spanCreated := true,
        spanStatus := some SpanStatus.ok, spanErrorRecorded := false,
        spanEnded := true, spanAttrs := [("X-Request-ID", id)],
        spanName := some name,
        durationLogged := some elapsedMs, finalHeaders := h1 }
    | some e =>
      let pr := handleRequestError reqFields e
      { logs := bridge.2.1 ++ pr.1 ++ [durationEvent reqFields elapsedMs],
        responses := bridge.2.2 ++ [pr.2], handlerInvoked := true,
        spanCreated := true, spanStatus := some (SpanStatus.error e.message),
        spanErrorRecorded := true, spanEnded := true,
        spanAttrs := [("X-Request-ID", id)],
        spanName := some name,
        durationLogged := some elapsedMs, finalHeaders := h1 }

/-- Model of the traceless `ErrorHandler` variant: identical pipeline with
no propagator extraction, no span, and a `HandlerContext` without tracer or
propagator fields; everything else (correlation-ID check, request-scoped
logger fields, header bridging and its failure handling, handler-error
translation, duration logging) is the same code. -/
def ErrorHandlerNT (baseFields : List (String × String))
    (handler : Headers → Option GoError) (r : Request) (elapsedMs : Nat) :
    DispatchResult :=
  let id := headersGet r.headers "X-Request-ID"
  if id = "" then
    let pr := handleRequestError baseFields
      (GoError.client (NewClientError "required request ID not found" 400))
    { logs := pr.1, responses := [pr.2], handlerInvoked := false,
      spanCreated := false, spanStatus := none, spanErrorRecorded := false,
      spanEnded := false, spanAttrs := [], spanName := none,
      durationLogged := none, finalHeaders := r.headers }
  else
    let reqFields := baseFields ++ [("request_id", id), ("path", r.subject)]
    let bridge :=
      match buildQueryHeaders r.headers with
      | Except.ok h' => (h', ([] : List LogEvent), ([] : List Response))
      | Except.error m =>
        let pr := handleRequestError reqFields (GoError.basic m)
        (r.headers, pr.1, [pr.2])
    let h1 := bridge.1
    match handler h1 with
    | none =>
      { logs := bridge.2.1 ++ [durationEvent reqFields elapsedMs],
        responses := bridge.2.2, handlerInvoked := true, spanCreated := false,
        spanStatus := none, spanErrorRecorded := false, spanEnded := false,
        spanAttrs := [], spanName := none,
        durationLogged := some elapsedMs, finalHeaders := h1 }
    | some e =>
      let pr := handleRequestError reqFields e
      { logs := bridge.2.1 ++ pr.1 ++ [durationEvent reqFields elapsedMs],
        responses := bridge.2.2 ++ [pr.2], handlerInvoked := true,
        spanCreated := false, spanStatus := none, spanErrorRecorded := false,
        spanEnded := false, spanAttrs := [], spanName := none,
        durationLogged := some elapsedMs, finalHeaders := h1 }

/-! Helper lemmas about the header map and the query parser. -/

theorem headersFind_set_self (h : Headers) (k : String) (vs : List String) :
    headersFind (headersSet h k vs) k = some vs := by
  induction h with
  | nil => simp [headersSet, headersFind]
  | cons p rest ih =>
    obtain ⟨k', vs'⟩ := p
    by_cases hk : k' = k
    · simp [headersSet, hk, headersFind]
    · simp [headersSet, hk, headersFind, ih]

theorem headersFind_set_ne (h : Headers) (k k' : String) (vs : List String)
    (hne : k' ≠ k) :
    headersFind (headersSet h k vs) k' = headersFind h k' := by
  induction h with
  | nil =>
    simp only [headersSet, headersFind]
    rw [if_neg (fun hh => hne hh.symm)]
  | cons p rest ih =>
    obtain ⟨k'', vs'⟩ := p
    by_cases hk : k'' = k
    · subst hk
      simp only [headersSet, if_pos rfl, headersFind]
      rw [if_neg (fun hh => hne hh.symm), if_neg (fun hh => hne hh.symm)]
    · simp only [headersSet, if_neg hk, headersFind, ih]

theorem mem_keys_iff_find (c : Headers) (k0 : String) :
    k0 ∈ c.map Prod.fst ↔ headersFind c k0 ≠ none := by
  induction c with
  | nil => simp [headersFind]
  | cons p rest ih =>
    obtain ⟨k', vs⟩ := p
    by_cases hk : k' = k0
    · subst hk
      simp [headersFind]
    · simp only [List.map_cons, List.mem_cons, headersFind, if_neg hk, ih]
      constructor
      · intro hmem
        rcases hmem with hmem | hmem
        · exact absurd hmem.symm hk
        · exact hmem
      · intro hfind
        exact Or.inr hfind

theorem valuesAdd_fst_mem (m : List (String × List String)) (k v : String) :
    ∀ x ∈ (valuesAdd m k v).map Prod.fst, x = k ∨ x ∈ m.map Prod.fst := by
  induction m with
  | nil => simp [valuesAdd]
  | cons p rest ih =>
    obtain ⟨k', vs⟩ := p
    by_cases hk : k' = k
    · intro x hx
      simp only [valuesAdd, if_pos hk, List.map_cons, List.mem_cons] at hx
      simp only [List.map_cons, List.mem_cons]
      rcases hx with hx | hx
      · exact Or.inr (Or.inl hx)
      · exact Or.inr (Or.inr hx)
    · intro x hx
      simp only [valuesAdd, if_neg hk, List.map_cons, List.mem_cons] at hx
      simp only [List.map_cons, List.mem_cons]
      rcases hx with hx | hx
      · exact Or.inr (Or.inl hx)
      · rcases ih x hx with hx' | hx'
        · exact Or.inl hx'
        · exact Or.inr (Or.inr hx')

theorem valuesAdd_nodup (m : List (String × List String)) (k v : String)
    (hnd : (m.map Prod.fst).Nodup) :
    ((valuesAdd m k v).map Prod.fst).Nodup := by
  induction m with
  | nil => simp [valuesAdd]
  | cons p rest ih =>
    obtain ⟨k', vs⟩ := p
    simp only [List.map_cons, List.nodup_cons] at hnd
    by_cases hk : k' = k
    · simp only [valuesAdd, if_pos hk, List.map_cons, List.nodup_cons]
      exact ⟨hnd.1, hnd.2⟩
    · simp only [valuesAdd, if_neg hk, List.map_cons, List.nodup_cons]
      refine ⟨?_, ih hnd.2⟩
      intro hmem
      rcases valuesAdd_fst_mem rest k v k' hmem with hx | hx
      · exact hk hx
      · exact hnd.1 hx

theorem parseQuerySegs_nodup (segs : List (List Char))
    (m : List (String × List String)) (e : Option String)
    (hnd : (m.map Prod.fst).Nodup) :
    (((parseQuerySegs segs m e).1).map Prod.fst).Nodup := by
  induction segs generalizing m e with
  | nil => simpa [parseQuerySegs] using hnd
  | cons seg rest ih =>
    simp only [parseQuerySegs]
    by_cases hsemi : seg.contains ';'
    · simp only [hsemi, if_pos]
      exact ih m _ hnd
    · simp only [hsemi]
      by_cases hemp : seg.isEmpty
      · simp only [hemp, if_pos, if_neg]
        exact ih m e hnd
      · simp only [hemp]
        cases hku : queryUnescape (cutEq seg).1 with
        | error msg => simp only [Bool.false_eq_true, if_neg, hku]; exact ih m _ hnd
        | ok kc =>
          cases hvu : queryUnescape (cutEq seg).2 with
          | error msg => simp only [Bool.false_eq_true, if_neg, hku, hvu]; exact ih m _ hnd
          | ok vc =>
            simp only [Bool.false_eq_true, if_neg, hku, hvu]
            exact ih _ e (valuesAdd_nodup m (String.mk kc) (String.mk vc) hnd)

theorem ParseQuery_nodup (q : String) :
    (((ParseQuery q).1).map Prod.fst).Nodup :=
  parseQuerySegs_nodup _ [] none (by simp)

theorem string_append_left_cancel {a b c : String} (h : a ++ b = a ++ c) :
    b = c := by
  have hd : (a ++ b).data = (a ++ c).data := by rw [h]
  rw [String.data_append, String.data_append] at hd
  have := List.append_cancel_left hd
  cases b
  cases c
  simp only at this
  rw [this]

theorem headersFind_fold_preserve (l : List (String × List String)) (h0 : Headers)
    (key : String) (hne : ∀ p ∈ l, "X-Sencillo-" ++ p.1 ≠ key) :
    headersFind (l.foldl (fun acc p => headersSet acc ("X-Sencillo-" ++ p.1) p.2) h0) key
      = headersFind h0 key := by
  induction l generalizing h0 with
  | nil => simp
  | cons p rest ih =>
    simp only [List.foldl_cons]
    rw [ih _ (fun p' hp' => hne p' (List.mem_cons_of_mem p hp'))]
    exact headersFind_set_ne h0 _ key p.2 (Ne.symm (hne p (List.mem_cons_self p rest)))

theorem headersFind_fold_mem (l : List (String × List String)) (h0 : Headers)
    (k : String) (vs : List String)
    (hnd : (l.map Prod.fst).Nodup) (hmem : (k, vs) ∈ l) :
    headersFind (l.foldl (fun acc p => headersSet acc ("X-Sencillo-" ++ p.1) p.2) h0)
      ("X-Sencillo-" ++ k) = some vs := by
  induction l generalizing h0 with
  | nil => cases hmem
  | cons p rest ih =>
    simp only [List.map_cons, List.nodup_cons] at hnd
    rcases List.mem_cons.mp hmem with hp | hp
    · subst hp
      simp only [List.foldl_cons]
      rw [headersFind_fold_preserve]
      · exact headersFind_set_self h0 _ vs
      · intro p' hp' hcontra
        have h1 : p'.1 = k := string_append_left_cancel hcontra
        have h2 : p'.1 ∈ rest.map Prod.fst := List.mem_map_of_mem Prod.fst hp'
        rw [h1] at h2
        exact hnd.1 h2
    · simp only [List.foldl_cons]
      exact ih _ hnd.2 hp

theorem getLast?_cons_append_singleton {α : Type _} (x : α) (l : List α) (a : α) :
    (x :: (l ++ [a])).getLast? = some a := by
  rw [← List.cons_append]
  exact List.getLast?_concat _

/-! Claim theorems. -/

/-- C10: for every header map in which the `X-NatsBridge-UrlQuery` lookup
yields the empty string (in particular when the header is absent),
`buildQueryHeaders` returns no error and adds no headers — bridging is a
silent no-op — and consequently the dispatcher's error-response path is
never taken for a merely missing bridge header: with a valid correlation
ID and a handler that succeeds, no response write happens at all. -/
theorem c10_missing_bridge_header_noop (h : Headers)
    (hq : headersGet h "X-NatsBridge-UrlQuery" = "") :
    buildQueryHeaders h = Except.ok h ∧
    (∀ (name : String) (baseFields : List (String × String))
       (handler : Headers → Option GoError) (r : Request) (elapsedMs : Nat),
       r.headers = h → headersGet h "X-Request-ID" ≠ "" → handler h = none →
       (ErrorHandlerGo name baseFields handler r elapsedMs).responses = []) := by
  have hok : buildQueryHeaders h = Except.ok h := by
    unfold buildQueryHeaders
    rw [hq]
    rfl
  refine ⟨hok, ?_⟩
  intro name baseFields handler r elapsedMs hr hid hh
  subst hr
  unfold ErrorHandlerGo
  rw [if_neg hid]
  simp only [hok, hh]

/-- C10 witness: a concrete header map with no bridge header at all. -/
theorem c10_missing_bridge_header_noop_witness :
    buildQueryHeaders [("X-Request-ID", ["abc"])] =
      Except.ok [("X-Request-ID", ["abc"])] ∧
    (ErrorHandlerGo "ep" [] (fun _ => none)
      { subject := "s", headers := [("X-Request-ID", ["abc"])] } 0).responses = [] := by
  have h := c10_missing_bridge_header_noop [("X-Request-ID", ["abc"])] (by decide)
  exact ⟨h.1, h.2 "ep" [] (fun _ => none)
    { subject := "s", headers := [("X-Request-ID", ["abc"])] } 0 rfl (by decide) rfl⟩

/-- C6: after a successful bridge, every original query parameter `k` with
ordered value list `vs` is retrievable through `GetQueryHeaders` under the
`X-Sencillo-` prefixed key, with its order preserved; in particular for a
request whose bridge header holds `a=1&a=2&b=3`, parameter `a` yields
`["1", "2"]` in that order and `b` yields `["3"]`. -/
theorem c6_bridge_preserves_params :
    (∀ (q : String) (m : List (String × List String)) (k : String)
       (vs : List String) (h h' : Headers),
       ParseQuery q = (m, none) →
       headersGet h "X-NatsBridge-UrlQuery" = q →
       buildQueryHeaders h = Except.ok h' →
       (k, vs) ∈ m →
       GetQueryHeaders h' k = vs) ∧
    (∀ (h h' : Headers),
       headersGet h "X-NatsBridge-UrlQuery" = "a=1&a=2&b=3" →
       buildQueryHeaders h = Except.ok h' →
       GetQueryHeaders h' "a" = ["1", "2"] ∧ GetQueryHeaders h' "b" = ["3"]) := by
  have general : ∀ (q : String) (m : List (String × List String)) (k : String)
      (vs : List String) (h h' : Headers),
      ParseQuery q = (m, none) →
      headersGet h "X-NatsBridge-UrlQuery" = q →
      buildQueryHeaders h = Except.ok h' →
      (k, vs) ∈ m →
      GetQueryHeaders h' k = vs := by
    intro q m k vs h h' hpq hq hb hmem
    have hnd : (m.map Prod.fst).Nodup := by
      have := ParseQuery_nodup q
      rw [hpq] at this
      exact this
    simp only [buildQueryHeaders, hq, hpq, Except.ok.injEq] at hb
    subst hb
    unfold GetQueryHeaders headersValues
    rw [headersFind_fold_mem m h k vs hnd hmem]
  refine ⟨general, ?_⟩
  intro h h' hq hb
  have hpq : ParseQuery "a=1&a=2&b=3" = ([("a", ["1", "2"]), ("b", ["3"])], none) := by
    decide
  constructor
  · exact general _ _ "a" ["1", "2"] h h' hpq hq hb (by simp)
  · exact general _ _ "b" ["3"] h h' hpq hq hb (by simp)

/-- C6 witness: the concrete bridged request from the claim. -/
theorem c6_bridge_preserves_params_witness :
    GetQueryHeaders
      [("X-NatsBridge-UrlQuery", ["a=1&a=2&b=3"]),
       ("X-Sencillo-a", ["1", "2"]), ("X-Sencillo-b", ["3"])] "a" = ["1", "2"] ∧
    GetQueryHeaders
      [("X-NatsBridge-UrlQuery", ["a=1&a=2&b=3"]),
       ("X-Sencillo-a", ["1", "2"]), ("X-Sencillo-b", ["3"])] "b" = ["3"] :=
  c6_bridge_preserves_params.2
    [("X-NatsBridge-UrlQuery", ["a=1&a=2&b=3"])]
    [("X-NatsBridge-UrlQuery", ["a=1&a=2&b=3"]),
     ("X-Sencillo-a", ["1", "2"]), ("X-Sencillo-b", ["3"])]
    (by decide) rfl

/-- C8: the trace-carrier adapter's set operation replaces the key's value
list with the singleton list of the new value (overwriting, never
appending) and leaves every other key untouched; its keys operation
enumerates exactly the keys present in the live container (a key is listed
iff lookup finds it); and a get after a set observes the set immediately,
since every operation acts directly on the live container. -/
theorem c8_carrier_adapter (c : Headers) (k v : String) :
    headersFind (carrierSet c k v) k = some [v] ∧
    (∀ k', k' ≠ k → headersFind (carrierSet c k v) k' = headersFind c k') ∧
    (∀ k0, k0 ∈ carrierKeys c ↔ headersFind c k0 ≠ none) ∧
    carrierGet (carrierSet c k v) k = v := by
  refine ⟨headersFind_set_self c k [v],
          fun k' hk' => headersFind_set_ne c k k' [v] hk',
          fun k0 => mem_keys_iff_find c k0, ?_⟩
  unfold carrierGet carrierSet headersGet
  rw [headersFind_set_self c k [v]]

/-- C8 witness: a concrete container where the key already holds a
two-element list; set overwrites it with a singleton. -/
theorem c8_carrier_adapter_witness :
    headersFind (carrierSet [("traceparent", ["old", "older"])] "traceparent" "new")
      "traceparent" = some ["new"] ∧
    headersFind (carrierSet [("traceparent", ["old", "older"])] "traceparent" "new")
      "other" = headersFind [("traceparent", ["old", "older"])] "other" ∧
    carrierGet (carrierSet [("traceparent", ["old", "older"])] "traceparent" "new")
      "traceparent" = "new" := by
  have h := c8_carrier_adapter [("traceparent", ["old", "older"])] "traceparent" "new"
  exact ⟨h.1, h.2.1 "other" (by decide), h.2.2.2⟩

/-- C1: a request whose `X-Request-ID` header is absent or empty is
answered with the 400 caller-fault envelope built from the missing-ID
error, the application handler is never invoked, and no span is created;
conversely, whenever the handler is invoked the correlation ID was
non-empty. -/
theorem c1_missing_correlation_id (name : String)
    (baseFields : List (String × String)) (handler : Headers → Option GoError)
    (r : Request) (elapsedMs : Nat) :
    (headersGet r.headers "X-Request-ID" = "" →
      (ErrorHandlerGo name baseFields handler r elapsedMs).handlerInvoked = false ∧
      (ErrorHandlerGo name baseFields handler r elapsedMs).spanCreated = false ∧
      (ErrorHandlerGo name baseFields handler r elapsedMs).responses =
        [{ code := "400", description := "Bad Request",
           body := "\x7b\"errors\": [\"required request ID not found\"]\x7d" }]) ∧
    ((ErrorHandlerGo name baseFields handler r elapsedMs).handlerInvoked = true →
      headersGet r.headers "X-Request-ID" ≠ "") := by
  constructor
  · intro hid
    unfold ErrorHandlerGo
    rw [if_pos hid]
    refine ⟨rfl, rfl, ?_⟩
    rfl
  · intro hinv hid
    unfold ErrorHandlerGo at hinv
    rw [if_pos hid] at hinv
    exact Bool.false_ne_true hinv

/-- C1 witness: a concrete request with no headers at all. -/
theorem c1_missing_correlation_id_witness :
    (ErrorHandlerGo "ep" [] (fun _ => none)
        { subject := "s", headers := [] } 0).handlerInvoked = false ∧
    (ErrorHandlerGo "ep" [] (fun _ => none)
        { subject := "s", headers := [] } 0).spanCreated = false ∧
    (ErrorHandlerGo "ep" [] (fun _ => none)
        { subject := "s", headers := [] } 0).responses =
      [{ code := "400", description := "Bad Request",
         body := "\x7b\"errors\": [\"required request ID not found\"]\x7d" }] :=
  (c1_missing_correlation_id "ep" [] (fun _ => none)
    { subject := "s", headers := [] } 0).1 rfl

/-- C9: on every request the tracing dispatcher and the traceless
dispatcher produce identical log events, identical transport response
writes, the same handler-invocation outcome, the same logged duration, and
the same final header map; the variants differ only in the span-related
observations the traceless one omits. -/
theorem c9_variants_agree (name : String) (baseFields : List (String × String))
    (handler : Headers → Option GoError) (r : Request) (elapsedMs : Nat) :
    (ErrorHandlerGo name baseFields handler r elapsedMs).logs =
      (ErrorHandlerNT baseFields handler r elapsedMs).logs ∧
    (ErrorHandlerGo name baseFields handler r elapsedMs).responses =
      (ErrorHandlerNT baseFields handler r elapsedMs).responses ∧
    (ErrorHandlerGo name baseFields handler r elapsedMs).handlerInvoked =
      (ErrorHandlerNT baseFields handler r elapsedMs).handlerInvoked ∧
    (ErrorHandlerGo name baseFields handler r elapsedMs).durationLogged =
      (ErrorHandlerNT baseFields handler r elapsedMs).durationLogged ∧
    (ErrorHandlerGo name baseFields handler r elapsedMs).finalHeaders =
      (ErrorHandlerNT baseFields handler r elapsedMs).finalHeaders := by
  unfold ErrorHandlerGo ErrorHandlerNT
  by_cases hid : headersGet r.headers "X-Request-ID" = ""
  · rw [if_pos hid, if_pos hid]
    exact ⟨rfl, rfl, rfl, rfl, rfl⟩
  · rw [if_neg hid, if_neg hid]
    cases hbr : buildQueryHeaders r.headers with
    | ok h' =>
      simp only [hbr]
      cases handler h' with
      | none => exact ⟨rfl, rfl, rfl, rfl, rfl⟩
      | some e => exact ⟨rfl, rfl, rfl, rfl, rfl⟩
    | error m =>
      simp only [hbr]
      cases handler r.headers with
      | none => exact ⟨rfl, rfl, rfl, rfl, rfl⟩
      | some e => exact ⟨rfl, rfl, rfl, rfl, rfl⟩

/-- C2 counterexample: a request with a valid correlation ID and the
malformed bridge query `%zz` is answered with the fixed internal-500
envelope, not a 400-class response — `url.ParseQuery`'s error does not
implement the `ClientError` interface, so `handleRequestError` takes the
generic branch. -/
theorem c2_counterexample :
    (ErrorHandlerGo "ep" [] (fun _ => none)
      { subject := "s",
        headers := [("X-Request-ID", ["abc"]),
                    ("X-NatsBridge-UrlQuery", ["%zz"])] } 0).responses =
      [{ code := "500", description := "internal server error",
         body := "\x7b\"errors\": [\"internal server error\"]\x7d" }] := by
  rfl

/-- C2 amended: for every request with a valid correlation ID whose bridge
header fails to parse, the failure is surfaced to the caller as the fixed
internal-500 envelope (the parse error does not implement `ClientError`),
and it is not swallowed: the parse error message is logged at error level
with the request-scoped fields and a response write happens first in the
response sequence. -/
theorem c2_bridge_failure_surfaced_as_500 (name : String)
    (baseFields : List (String × String)) (handler : Headers → Option GoError)
    (r : Request) (elapsedMs : Nat) (msg : String)
    (hid : headersGet r.headers "X-Request-ID" ≠ "")
    (hbr : buildQueryHeaders r.headers = Except.error msg) :
    (ErrorHandlerGo name baseFields handler r elapsedMs).responses.head? =
      some { code := "500", description := "internal server error",
             body := "\x7b\"errors\": [\"internal server error\"]\x7d" } ∧
    { level := "error",
      fields := baseFields ++
        [("request_id", headersGet r.headers "X-Request-ID"), ("path", r.subject)],
      msg := msg } ∈ (ErrorHandlerGo name baseFields handler r elapsedMs).logs := by
  unfold ErrorHandlerGo
  rw [if_neg hid]
  simp only [hbr]
  cases handler r.headers with
  | none =>
    exact ⟨rfl, by simp [handleRequestError]⟩
  | some e =>
    exact ⟨rfl, by simp [handleRequestError]⟩

/-- C2 witness for the amended statement: the concrete `%zz` request. -/
theorem c2_bridge_failure_surfaced_as_500_witness :
    (ErrorHandlerGo "ep" [] (fun _ => none)
      { subject := "s",
        headers := [("X-Request-ID", ["abc"]),
                    ("X-NatsBridge-UrlQuery", ["%zz"])] } 0).responses.head? =
      some { code := "500", description := "internal server error",
             body := "\x7b\"errors\": [\"internal server error\"]\x7d" } ∧
    { level := "error", fields := [("request_id", "abc"), ("path", "s")],
      msg := "invalid URL escape \"%zz\"" } ∈
      (ErrorHandlerGo "ep" [] (fun _ => none)
        { subject := "s",
          headers := [("X-Request-ID", ["abc"]),
                      ("X-NatsBridge-UrlQuery", ["%zz"])] } 0).logs :=
  c2_bridge_failure_surfaced_as_500 "ep" [] (fun _ => none)
    { subject := "s",
      headers := [("X-Request-ID", ["abc"]), ("X-NatsBridge-UrlQuery", ["%zz"])] }
    0 "invalid URL escape \"%zz\"" (by decide) rfl

/-- C3: when the handler returns an error that does not implement the
`ClientError` interface, the dispatcher writes exactly the fixed body
with status 500 and the original message appears in the error-level log
event only — the written body is a constant independent of the message. -/
theorem c3_internal_error_envelope (name : String)
    (baseFields : List (String × String)) (handler : Headers → Option GoError)
    (r : Request) (elapsedMs : Nat) (msg : String) (h' : Headers)
    (hid : headersGet r.headers "X-Request-ID" ≠ "")
    (hbr : buildQueryHeaders r.headers = Except.ok h')
    (hh : handler h' = some (GoError.basic msg)) :
    (ErrorHandlerGo name baseFields handler r elapsedMs).responses =
      [{ code := "500", description := "internal server error",
         body := "\x7b\"errors\": [\"internal server error\"]\x7d" }] ∧
    (ErrorHandlerGo name baseFields handler r elapsedMs).logs =
      [{ level := "error",
         fields := baseFields ++
           [("request_id", headersGet r.headers "X-Request-ID"), ("path", r.subject)],
         msg := msg },
       durationEvent
         (baseFields ++
           [("request_id", headersGet r.headers "X-Request-ID"), ("path", r.subject)])
         elapsedMs] := by
  unfold ErrorHandlerGo
  rw [if_neg hid]
  simp [hbr, hh, handleRequestError]

/-- C3 witness: a concrete request and a handler failing with `boom`. -/
theorem c3_internal_error_envelope_witness :
    (ErrorHandlerGo "ep" [] (fun _ => some (GoError.basic "boom"))
      { subject := "s", headers := [("X-Request-ID", ["abc"])] } 4).responses =
      [{ code := "500", description := "internal server error",
         body := "\x7b\"errors\": [\"internal server error\"]\x7d" }] ∧
    (ErrorHandlerGo "ep" [] (fun _ => some (GoError.basic "boom"))
      { subject := "s", headers := [("X-Request-ID", ["abc"])] } 4).logs =
      [{ level := "error", fields := [("request_id", "abc"), ("path", "s")],
         msg := "boom" },
       durationEvent [("request_id", "abc"), ("path", "s")] 4] :=
  c3_internal_error_envelope "ep" [] (fun _ => some (GoError.basic "boom"))
    { subject := "s", headers := [("X-Request-ID", ["abc"])] } 4 "boom"
    [("X-Request-ID", ["abc"])] (by decide) rfl rfl

/-- C4 counterexample: an error value implementing the `ClientError`
interface with status 404 and details `[not found]` (the raw nine-character
string, exactly as the claim words it) is rendered by `Body()` as
`\x7b"errors": [not found]\x7d` — the details are pasted verbatim, not
JSON-escaped — so the dispatcher's written body differs from the claimed
`\x7b"errors": ["not found"]\x7d`. -/
theorem c4_counterexample :
    (ErrorHandlerGo "ep" [] (fun _ => some (GoError.client
        { Status := 404, Details := ["not found"], DetailedErrors := [] }))
      { subject := "s", headers := [("X-Request-ID", ["abc"])] } 0).responses =
      [{ code := "404", description := "Not Found",
         body := "\x7b\"errors\": [not found]\x7d" }] ∧
    "\x7b\"errors\": [not found]\x7d" ≠ "\x7b\"errors\": [\"not found\"]\x7d" :=
  ⟨rfl, by decide⟩

/-- C4 amended: for a `ClientError` built by the constructors from a cause
with message `not found` and code 404 (the constructors `%q`-quote each
cause into the details), the dispatcher writes exactly the claimed body
and status 404; in general `Body()` renders the envelope by comma-joining
the stored details verbatim, so the JSON escaping of details is performed
by the constructors, not by `Body()` itself. -/
theorem c4_client_error_rendering :
    (∀ (name : String) (baseFields : List (String × String)) (r : Request)
       (elapsedMs : Nat) (h' : Headers) (handler : Headers → Option GoError),
       headersGet r.headers "X-Request-ID" ≠ "" →
       buildQueryHeaders r.headers = Except.ok h' →
       handler h' = some (GoError.client (NewClientError "not found" 404)) →
       (ErrorHandlerGo name baseFields handler r elapsedMs).responses =
         [{ code := "404", description := "Not Found",
            body := "\x7b\"errors\": [\"not found\"]\x7d" }]) ∧
    (∀ (msgs : List String) (code : Int),
       (MultipleClientErrors msgs code).body =
         "\x7b\"errors\": [" ++ String.intercalate "," (msgs.map goQuote) ++ "]\x7d") := by
  constructor
  · intro name baseFields r elapsedMs h' handler hid hbr hh
    unfold ErrorHandlerGo
    rw [if_neg hid]
    simp only [hbr, hh, List.nil_append]
    rfl
  · intro msgs code
    rfl

/-- C4 witness for the amended statement: the concrete 404 request. -/
theorem c4_client_error_rendering_witness :
    (ErrorHandlerGo "ep" []
      (fun _ => some (GoError.client (NewClientError "not found" 404)))
      { subject := "s", headers := [("X-Request-ID", ["abc"])] } 0).responses =
      [{ code := "404", description := "Not Found",
         body := "\x7b\"errors\": [\"not found\"]\x7d" }] :=
  c4_client_error_rendering.1 "ep" []
    { subject := "s", headers := [("X-Request-ID", ["abc"])] } 0
    [("X-Request-ID", ["abc"])]
    (fun _ => some (GoError.client (NewClientError "not found" 404)))
    (by decide) rfl rfl

/-- C5: on a request with a valid correlation ID whose bridge header fails
to parse, the failure is reported through the error-response path (the
first response write is the envelope produced by `handleRequestError`) yet
dispatch continues: the span is still created and the application handler
is still invoked. -/
theorem c5_bridge_failure_still_dispatches (name : String)
    (baseFields : List (String × String)) (handler : Headers → Option GoError)
    (r : Request) (elapsedMs : Nat) (msg : String)
    (hid : headersGet r.headers "X-Request-ID" ≠ "")
    (hbr : buildQueryHeaders r.headers = Except.error msg) :
    (ErrorHandlerGo name baseFields handler r elapsedMs).handlerInvoked = true ∧
    (ErrorHandlerGo name baseFields handler r elapsedMs).spanCreated = true ∧
    (ErrorHandlerGo name baseFields handler r elapsedMs).responses.head? =
      some { code := "500", description := "internal server error",
             body := "\x7b\"errors\": [\"internal server error\"]\x7d" } := by
  unfold ErrorHandlerGo
  rw [if_neg hid]
  simp only [hbr]
  cases handler r.headers with
  | none => exact ⟨rfl, rfl, rfl⟩
  | some e => exact ⟨rfl, rfl, rfl⟩

/-- C5 witness: the concrete `%zz` request with a succeeding handler. -/
theorem c5_bridge_failure_still_dispatches_witness :
    (ErrorHandlerGo "ep" [] (fun _ => none)
      { subject := "s",
        headers := [("X-Request-ID", ["abc"]),
                    ("X-NatsBridge-UrlQuery", ["%zz"])] } 0).handlerInvoked = true ∧
    (ErrorHandlerGo "ep" [] (fun _ => none)
      { subject := "s",
        headers := [("X-Request-ID", ["abc"]),
                    ("X-NatsBridge-UrlQuery", ["%zz"])] } 0).spanCreated = true ∧
    (ErrorHandlerGo "ep" [] (fun _ => none)
      { subject := "s",
        headers := [("X-Request-ID", ["abc"]),
                    ("X-NatsBridge-UrlQuery", ["%zz"])] } 0).responses.head? =
      some { code := "500", description := "internal server error",
             body := "\x7b\"errors\": [\"internal server error\"]\x7d" } :=
  c5_bridge_failure_still_dispatches "ep" [] (fun _ => none)
    { subject := "s",
      headers := [("X-Request-ID", ["abc"]), ("X-NatsBridge-UrlQuery", ["%zz"])] }
    0 "invalid URL escape \"%zz\"" (by decide) rfl

/-- C7 counterexample: on a request missing the correlation ID the
dispatcher returns before the duration-logging defer is registered, so no
duration is logged at all (while a response is still written) — refuting
the claim that every path, including this error path, logs a duration. -/
theorem c7_counterexample :
    (ErrorHandlerGo "ep" [] (fun _ => none)
      { subject := "s", headers := [] } 0).durationLogged = none ∧
    (ErrorHandlerGo "ep" [] (fun _ => none)
      { subject := "s", headers := [] } 0).responses ≠ [] :=
  ⟨rfl, by decide⟩

/-- C7 amended: every error path writes a transport-level response — no
response write happens only when the handler succeeded — and for every
request passing the correlation-ID check the dispatcher logs, last, the
non-negative wall-clock elapsed duration (the measured `elapsedMs : Nat`;
Go's `time.Since` is monotonic-clock based); the missing-correlation-ID
path writes its 400 response but logs no duration. -/
theorem c7_duration_and_response_paths (name : String)
    (baseFields : List (String × String)) (handler : Headers → Option GoError)
    (r : Request) (elapsedMs : Nat) :
    (headersGet r.headers "X-Request-ID" = "" →
      (ErrorHandlerGo name baseFields handler r elapsedMs).durationLogged = none ∧
      (ErrorHandlerGo name baseFields handler r elapsedMs).responses ≠ []) ∧
    (headersGet r.headers "X-Request-ID" ≠ "" →
      (ErrorHandlerGo name baseFields handler r elapsedMs).durationLogged =
        some elapsedMs ∧
      (ErrorHandlerGo name baseFields handler r elapsedMs).logs.getLast? =
        some (durationEvent
          (baseFields ++
            [("request_id", headersGet r.headers "X-Request-ID"),
             ("path", r.subject)]) elapsedMs)) ∧
    ((ErrorHandlerGo name baseFields handler r elapsedMs).responses = [] →
      (ErrorHandlerGo name baseFields handler r elapsedMs).spanStatus =
        some SpanStatus.ok) := by
  refine ⟨?_, ?_, ?_⟩
  · intro hid
    unfold ErrorHandlerGo
    rw [if_pos hid]
    exact ⟨rfl, by simp [handleRequestError, NewClientError, MultipleClientErrors]⟩
  · intro hid
    unfold ErrorHandlerGo
    rw [if_neg hid]
    cases hbr : buildQueryHeaders r.headers with
    | ok h' =>
      simp only [hbr]
      cases handler h' with
      | none => exact ⟨rfl, by simp⟩
      | some e => exact ⟨rfl, by simp⟩
    | error m =>
      simp only [hbr]
      cases handler r.headers with
      | none => exact ⟨rfl, by simp [handleRequestError]⟩
      | some e =>
        refine ⟨rfl, ?_⟩
        simp only [handleRequestError, List.nil_append]
        exact getLast?_cons_append_singleton _ _ _
  · intro hresp
    by_cases hid : headersGet r.headers "X-Request-ID" = ""
    · exfalso
      unfold ErrorHandlerGo at hresp
      rw [if_pos hid] at hresp
      simp at hresp
    · unfold ErrorHandlerGo at hresp ⊢
      rw [if_neg hid] at hresp ⊢
      cases hbr : buildQueryHeaders r.headers with
      | ok h' =>
        simp only [hbr] at hresp ⊢
        cases hh : handler h' with
        | none => rfl
        | some e =>
          exfalso
          simp only [hh] at hresp
          simp at hresp
      | error m =>
        exfalso
        simp only [hbr] at hresp
        cases hh : handler r.headers with
        | none =>
          simp only [hh] at hresp
          simp [handleRequestError] at hresp
        | some e =>
          simp only [hh] at hresp
          simp [handleRequestError] at hresp

/-- C7 witness for the amended statement: a concrete request with a valid
correlation ID and elapsed 7 ms. -/
theorem c7_duration_and_response_paths_witness :
    (ErrorHandlerGo "ep" [] (fun _ => none)
      { subject := "s", headers := [("X-Request-ID", ["abc"])] } 7).durationLogged =
      some 7 ∧
    (ErrorHandlerGo "ep" [] (fun _ => none)
      { subject := "s", headers := [("X-Request-ID", ["abc"])] } 7).logs.getLast? =
      some (durationEvent [("request_id", "abc"), ("path", "s")] 7) :=
  (c7_duration_and_response_paths "ep" [] (fun _ => none)
    { subject := "s", headers := [("X-Request-ID", ["abc"])] } 7).2.1 (by decide)

end Sencillo
